import Mathlib

/-!
Shallow embedding of `classquiz/__init__.py` (the ClassQuiz application
bootstrap): middleware wiring, startup/shutdown lifecycle hooks, the
background scheduler task, and the route registration table.
-/

namespace ClassQuiz

/-! ## Middleware chain

The source registers three request interceptors on the FastAPI app, in this
module-level order:

1. `@app.middleware("http")` on `sentry_exception`,
2. `@app.middleware("http")` on `auth_middleware_wrapper`,
3. `app.add_middleware(SessionMiddleware, secret_key=settings.secret_key)`.

FastAPI's `@app.middleware("http")` decorator calls
`add_middleware(BaseHTTPMiddleware, dispatch=func)`, and Starlette's
`add_middleware` executes `self.user_middleware.insert(0, ...)`; when the
stack is built, `user_middleware` index 0 wraps all later indices, i.e. the
head of the list is the OUTERMOST user middleware. We embed the list head
as the outermost stage. -/

inductive Mw where
  | sentryException
  | authMiddlewareWrapper
  | sessionMiddleware
  deriving DecidableEq, Repr

/-- Starlette `Applications.add_middleware`: `user_middleware.insert(0, m)`. -/
def add_middleware (stack : List Mw) (m : Mw) : List Mw := m :: stack

/-- The user-middleware list the module builds, applying `add_middleware`
in source order (sentry first, then auth wrapper, then session).
Head of the list = outermost stage of the request pipeline. -/
def user_middleware : List Mw :=
  add_middleware
    (add_middleware
      (add_middleware [] .sentryException)
      .authMiddlewareWrapper)
    .sessionMiddleware

/-! ## The sentry_exception wrapper

```python
async def sentry_exception(request: Request, call_next):
    try:
        response = await call_next(request)
        return response
    except Exception as e:
        with sentry_sdk.push_scope() as scope:
            scope.set_context("request", request)
            sentry_sdk.capture_exception(e)
        raise e
```

We embed the wrapper over an arbitrary inner handler `call_next` returning
`Except Exn Resp`, and make its telemetry side effect explicit as the list
of capture events it emits. -/

/-- One `capture_exception` call with the request context attached to the
scope by `scope.set_context("request", request)`. -/
inductive SentryEvent (Req Exn : Type) where
  | captured (requestContext : Req) (exn : Exn)
  deriving DecidableEq, Repr

/-- Embedding of `sentry_exception`: run `call_next`; on success return the
response with no capture; on exception `e`, emit exactly the one capture
event and re-raise the same `e`. -/
def sentry_exception {Req Resp Exn : Type}
    (call_next : Req → Except Exn Resp) (request : Req) :
    Except Exn Resp × List (SentryEvent Req Exn) :=
  match call_next request with
  | .ok response => (.ok response, [])
  | .error e => (.error e, [.captured request e])

/-! ## Lifecycle state machine

The startup/shutdown hooks act on the process-wide state: the shared
database handle (`app.state.database`), the background tasks spawned so
far, and — to make ordering and side effects provable — an explicit trace
of the effectful calls the hooks perform. -/

/-- One effectful call performed by the lifecycle hooks.  `meiliInit` and
`spawnScheduler` record the database handle's `is_connected` flag at the
moment of the call, so ordering relative to the connect is visible in the
trace. -/
inductive Eff where
  | dbConnect
  | dbDisconnect
  | meiliInit (dbUp : Bool)
  | telemetryPingOk
  | telemetryPingCaught
  | spawnScheduler (dbUp : Bool)
  deriving DecidableEq, Repr

/-- Process-wide state seen by the lifecycle hooks. -/
structure SysState where
  dbConnected : Bool
  tasksSpawned : Nat
  trace : List Eff
  deriving DecidableEq, Repr

/-- Fresh process state: database handle created but not connected, no
background task, nothing executed yet. -/
def freshState : SysState := { dbConnected := false, tasksSpawned := 0, trace := [] }

/-- Failure modes of the external calls made during the lifecycle. -/
inductive LifecycleErr where
  | dbConnectError
  | dbDisconnectError
  | meiliError
  deriving DecidableEq, Repr

/-- Environment: which external calls fail when invoked.
`pingAttemptFails` makes the telemetry ping's own network attempt raise. -/
structure Env where
  connectFails : Bool
  disconnectFails : Bool
  meiliFails : Bool
  pingAttemptFails : Bool
  deriving DecidableEq, Repr

/-- A lifecycle step either finishes in a new state or raises, with the
error carrying the state at the point of failure, so that the side effects
performed before the failure remain observable. -/
abbrev LifecycleResult := Except (LifecycleErr × SysState) SysState

/-- The process state an execution leaves behind, whether it finished
normally or raised. -/
def outState : LifecycleResult → SysState
  | .ok s => s
  | .error (_, s) => s

/-- `await database_.connect()`. -/
def dbConnect (env : Env) (s : SysState) : LifecycleResult :=
  if env.connectFails then .error (.dbConnectError, s)
  else .ok { s with dbConnected := true, trace := s.trace ++ [.dbConnect] }

/-- `await database_.disconnect()`. -/
def dbDisconnect (env : Env) (s : SysState) : LifecycleResult :=
  if env.disconnectFails then .error (.dbDisconnectError, s)
  else .ok { s with dbConnected := false, trace := s.trace ++ [.dbDisconnect] }

/-- `await meilisearch_init()` — external call; a failure propagates. -/
def meilisearch_init (env : Env) (s : SysState) : LifecycleResult :=
  if env.meiliFails then .error (.meiliError, s)
  else .ok { s with trace := s.trace ++ [.meiliInit s.dbConnected] }

/-- Modelled from the spec: the body of `telemetry_ping`
(`classquiz/helpers`, not part of the bootstrap file) sends a single
best-effort ping and catches and ignores its own failures, so the call
returns normally whether or not the underlying attempt raises. -/
def telemetry_ping (env : Env) (s : SysState) : LifecycleResult :=
  match (if env.pingAttemptFails then Except.error () else Except.ok ()) with
  | .error _ => .ok { s with trace := s.trace ++ [.telemetryPingCaught] }
  | .ok _ => .ok { s with trace := s.trace ++ [.telemetryPingOk] }

/-- The effect the telemetry ping leaves in the trace under `env`. -/
def pingEff (env : Env) : Eff :=
  if env.pingAttemptFails then .telemetryPingCaught else .telemetryPingOk

/-- `asyncio.create_task(background_tasks())`: spawns one more detached
scheduler task; never fails. -/
def spawnSchedulerTask (s : SysState) : SysState :=
  { s with tasksSpawned := s.tasksSpawned + 1,
           trace := s.trace ++ [.spawnScheduler s.dbConnected] }

/-- Embedding of the startup hook:

```python
async def startup() -> None:
    database_ = app.state.database
    if not database_.is_connected:
        await database_.connect()
    await meilisearch_init()
    await telemetry_ping()
    asyncio.create_task(background_tasks())
``` -/
def startup (env : Env) (s : SysState) : LifecycleResult := do
  let s1 ← if s.dbConnected then .ok s else dbConnect env s
  let s2 ← meilisearch_init env s1
  let s3 ← telemetry_ping env s2
  .ok (spawnSchedulerTask s3)

/-- Embedding of the shutdown hook:

```python
async def shutdown() -> None:
    database_ = app.state.database
    if database_.is_connected:
        await database_.disconnect()
``` -/
def shutdown (env : Env) (s : SysState) : LifecycleResult :=
  if s.dbConnected then dbDisconnect env s else .ok s

/-- `startup` invoked `n` times in succession. -/
def startupIter (env : Env) : Nat → SysState → LifecycleResult
  | 0, s => .ok s
  | n + 1, s => do
      let s1 ← startup env s
      startupIter env n s1

/-- Trace classifier: a search-index initialization call. -/
def isMeiliInit : Eff → Bool
  | .meiliInit _ => true
  | _ => false

/-- Trace classifier: a completed telemetry-ping call (whether the inner
attempt succeeded or its failure was caught). -/
def isTelemetryPing : Eff → Bool
  | .telemetryPingOk => true
  | .telemetryPingCaught => true
  | _ => false

/-! ## The background scheduler task

```python
async def background_tasks():
    schedule = Scheduler()
    schedule.cyclic(timedelta(hours=6), bg_tasks.clean_editor_images_up)
    while True:
        await asyncio.sleep(1)
```

Embedded as a small-step machine: one registration step, then the infinite
sleep loop.  A `done` program counter exists in the type so that "the task
never returns" is a genuine statement about reachability. -/

inductive BgJob where
  | cleanEditorImagesUp
  deriving DecidableEq, Repr

inductive BgEff where
  | registerCyclic (periodSeconds : Nat) (job : BgJob)
  | sleep (seconds : Nat)
  deriving DecidableEq, Repr

inductive BgPC where
  | register
  | loop
  | done
  deriving DecidableEq, Repr

structure BgState where
  pc : BgPC
  trace : List BgEff
  deriving DecidableEq, Repr

/-- One step of `background_tasks`: the registration call
`schedule.cyclic(timedelta(hours=6), bg_tasks.clean_editor_images_up)`
(6 hours = 21600 seconds), then each loop iteration awaits
`asyncio.sleep(1)` and continues the loop; `done` is never entered. -/
def bgStep (s : BgState) : BgState :=
  match s.pc with
  | .register =>
      { pc := .loop, trace := s.trace ++ [.registerCyclic (6 * 3600) .cleanEditorImagesUp] }
  | .loop =>
      { pc := .loop, trace := s.trace ++ [.sleep 1] }
  | .done => s

/-- `background_tasks` after `n` steps from its entry point. -/
def bgRun (n : Nat) : BgState :=
  bgStep^[n] { pc := .register, trace := [] }

/-! ## Route registration table

The twelve `app.include_router` calls and the root `app.mount`. -/

inductive RouterName where
  | login | users | quiz | utils | stats | storage | search
  | live | testing_routes | editor | eximport | sitemap
  deriving DecidableEq, Repr

structure RouterRegistration where
  router : RouterName
  tags : List String
  path : String
  include_in_schema : Bool
  deriving DecidableEq, Repr

/-- The `include_router` calls in source order. -/
def routeTable : List RouterRegistration :=
  [ ⟨.login, ["auth"], "/api/v1/login", true⟩,
    ⟨.users, ["users"], "/api/v1/users", true⟩,
    ⟨.quiz, ["quiz"], "/api/v1/quiz", true⟩,
    ⟨.utils, ["utils"], "/api/v1/utils", true⟩,
    ⟨.stats, ["stats"], "/api/v1/stats", true⟩,
    ⟨.storage, ["storage"], "/api/v1/storage", true⟩,
    ⟨.search, ["search"], "/api/v1/search", true⟩,
    ⟨.live, ["live"], "/api/v1/live", true⟩,
    ⟨.testing_routes, ["internal", "testing"], "/api/v1/internal/testing", false⟩,
    ⟨.editor, ["editor"], "/api/v1/editor", true⟩,
    ⟨.eximport, ["export", "import"], "/api/v1/eximport", true⟩,
    ⟨.sitemap, ["sitemap"], "/api/v1/sitemap", true⟩ ]

/-- `app.mount("/", ASGIApp(sio))`: the real-time socket transport path. -/
def socketMountPath : String := "/"

end ClassQuiz

namespace ClassQuiz

/-! ## Claims about the middleware chain -/

/-- C1 counterexample: the exception-capture wrapper is NOT the outermost
stage of the middleware chain.  Because Starlette's `add_middleware`
inserts at the front of `user_middleware`, the last middleware added
(`SessionMiddleware`) is outermost, and `sentry_exception` — added first —
ends up innermost. -/
theorem sentry_not_outermost :
    user_middleware.head? ≠ some Mw.sentryException := by decide

/-- C1 (amended): the middleware chain outer-to-inner is session wrapper,
then auth wrapper, then exception-capture wrapper: the auth wrapper does
run inside the session wrapper, but the exception-capture stage is the
innermost stage, so it observes only failures raised inside it (the route
handlers), not failures raised by the session or auth middleware. -/
theorem middleware_order_actual :
    user_middleware =
      [Mw.sessionMiddleware, Mw.authMiddlewareWrapper, Mw.sentryException] := by
  decide

/-- C3: for every request whose inner handler raises an exception, the
`sentry_exception` wrapper records that exception exactly once (one capture
event, carrying the request context) and re-raises the identical exception
unchanged. -/
theorem sentry_exception_captures_once_and_reraises
    {Req Resp Exn : Type} (call_next : Req → Except Exn Resp)
    (request : Req) (e : Exn) (h : call_next request = .error e) :
    sentry_exception call_next request =
      (.error e, [SentryEvent.captured request e]) := by
  simp [sentry_exception, h]

/-- Witness for C3 at a concrete failing handler. -/
theorem sentry_exception_captures_once_and_reraises_witness :
    sentry_exception (fun _ : Nat => (Except.error 7 : Except Nat Nat)) 3 =
      (.error 7, [SentryEvent.captured 3 7]) :=
  sentry_exception_captures_once_and_reraises
    (fun _ : Nat => (Except.error 7 : Except Nat Nat)) 3 7 rfl

/-! ## Claims about the route registration table -/

/-- C7: the registered route-group path prefixes are exactly the twelve API
prefixes of the external-interface table, pairwise distinct, each beginning
with the common segment `/api/v1`; the real-time transport is mounted at
`/`, which equals none of them. -/
theorem route_table_prefixes :
    routeTable.map (fun r => r.path) =
      ["/api/v1/login", "/api/v1/users", "/api/v1/quiz", "/api/v1/utils",
       "/api/v1/stats", "/api/v1/storage", "/api/v1/search", "/api/v1/live",
       "/api/v1/internal/testing", "/api/v1/editor", "/api/v1/eximport",
       "/api/v1/sitemap"]
    ∧ (routeTable.map (fun r => r.path)).Nodup
    ∧ (routeTable.all (fun r => "/api/v1".data.isPrefixOf r.path.data)) = true
    ∧ socketMountPath ∉ routeTable.map (fun r => r.path) := by
  refine ⟨rfl, ?_, ?_, ?_⟩ <;> decide

/-- C8: exactly one registered route group — the internal-testing group at
`/api/v1/internal/testing` — has schema visibility off, and every other
group is schema-visible. -/
theorem route_table_schema_visibility :
    (routeTable.filter (fun r => !r.include_in_schema)).map (fun r => r.path) =
      ["/api/v1/internal/testing"]
    ∧ (routeTable.all
        (fun r => r.path ≠ "/api/v1/internal/testing" → r.include_in_schema)) = true := by
  exact ⟨rfl, by decide⟩

/-! ## Claims about the background scheduler task -/

/-- C9: `background_tasks` first registers exactly one cyclic job — the
orphaned-editor-image cleanup with a fixed 6-hour (21600-second) period —
and then loops forever sleeping in fixed 1-second increments: after any
`n ≥ 1` steps the trace is the single registration followed by `n - 1`
one-second sleeps, and the task has not returned. -/
theorem background_tasks_behavior (n : Nat) (h : 1 ≤ n) :
    (bgRun n).trace =
      BgEff.registerCyclic (6 * 3600) BgJob.cleanEditorImagesUp ::
        List.replicate (n - 1) (BgEff.sleep 1)
    ∧ (bgRun n).pc ≠ BgPC.done := by
  obtain ⟨m, rfl⟩ : ∃ m, n = m + 1 := ⟨n - 1, (Nat.succ_pred_eq_of_pos h).symm⟩
  have key : ∀ k : Nat, bgRun (k + 1) =
      { pc := .loop,
        trace := BgEff.registerCyclic (6 * 3600) BgJob.cleanEditorImagesUp ::
          List.replicate k (BgEff.sleep 1) } := by
    intro k
    induction k with
    | zero => rfl
    | succ k ih =>
        have : bgRun (k + 1 + 1) = bgStep (bgRun (k + 1)) := by
          simp [bgRun, Function.iterate_succ_apply']
        rw [this, ih]
        simp [bgStep, List.replicate_succ' (n := k)]
  simp [key m]

/-- Witness for C9 at three steps. -/
theorem background_tasks_behavior_witness :
    (bgRun 3).trace =
      BgEff.registerCyclic (6 * 3600) BgJob.cleanEditorImagesUp ::
        List.replicate 2 (BgEff.sleep 1)
    ∧ (bgRun 3).pc ≠ BgPC.done :=
  background_tasks_behavior 3 (by decide)

/-! ## Lifecycle helper lemmas -/

/-- On an already-connected handle, `startup` skips the connect and, when
the search-index init succeeds, finishes having run init, ping and spawn. -/
lemma startup_connected_ok (env : Env) (s : SysState)
    (hdb : s.dbConnected = true) (hm : env.meiliFails = false) :
    startup env s = .ok
      { dbConnected := true, tasksSpawned := s.tasksSpawned + 1,
        trace := s.trace ++ [Eff.meiliInit true, pingEff env, Eff.spawnScheduler true] } := by
  obtain ⟨db, tk, tr⟩ := s
  obtain ⟨cf, df, mf, pf⟩ := env
  simp only at hdb hm
  subst hdb hm
  cases pf <;>
    simp [startup, meilisearch_init, telemetry_ping, spawnSchedulerTask, pingEff,
      Bind.bind, Except.bind]

/-- On a disconnected handle, `startup` first connects and, when connect
and search-index init succeed, finishes having run all four steps. -/
lemma startup_disconnected_ok (env : Env) (s : SysState)
    (hdb : s.dbConnected = false) (hc : env.connectFails = false)
    (hm : env.meiliFails = false) :
    startup env s = .ok
      { dbConnected := true, tasksSpawned := s.tasksSpawned + 1,
        trace := s.trace ++
          [Eff.dbConnect, Eff.meiliInit true, pingEff env, Eff.spawnScheduler true] } := by
  obtain ⟨db, tk, tr⟩ := s
  obtain ⟨cf, df, mf, pf⟩ := env
  simp only at hdb hc hm
  subst hdb hc hm
  cases pf <;>
    simp [startup, dbConnect, meilisearch_init, telemetry_ping, spawnSchedulerTask, pingEff,
      Bind.bind, Except.bind]

/-- Whatever happens inside `startup`, the handle ends connected exactly
when it started connected or the connect call succeeds. -/
lemma startup_outState_dbConnected (env : Env) (s : SysState) :
    (outState (startup env s)).dbConnected = (s.dbConnected || !env.connectFails) := by
  obtain ⟨db, tk, tr⟩ := s
  obtain ⟨cf, df, mf, pf⟩ := env
  cases db <;> cases cf <;> cases mf <;> cases pf <;>
    simp [startup, dbConnect, meilisearch_init, telemetry_ping, spawnSchedulerTask, outState,
      Bind.bind, Except.bind]

/-- Whatever happens inside `startup`, the number of `connect` effects in
the trace grows by one exactly when the handle was disconnected and the
connect call succeeds, and never by more. -/
lemma startup_outState_count_connect (env : Env) (s : SysState) :
    (outState (startup env s)).trace.count Eff.dbConnect =
      s.trace.count Eff.dbConnect +
        (if s.dbConnected = false ∧ env.connectFails = false then 1 else 0) := by
  obtain ⟨db, tk, tr⟩ := s
  obtain ⟨cf, df, mf, pf⟩ := env
  cases db <;> cases cf <;> cases mf <;> cases pf <;>
    simp [startup, dbConnect, meilisearch_init, telemetry_ping, spawnSchedulerTask, outState,
      Bind.bind, Except.bind, List.count_append]

/-- The ping effect is one of the two telemetry-ping trace entries. -/
lemma isTelemetryPing_pingEff (env : Env) : isTelemetryPing (pingEff env) = true := by
  cases h : env.pingAttemptFails <;> simp [pingEff, h, isTelemetryPing]

/-- The ping effect is not a search-init entry. -/
lemma isMeiliInit_pingEff (env : Env) : isMeiliInit (pingEff env) = false := by
  cases h : env.pingAttemptFails <;> simp [pingEff, h, isMeiliInit]

/-- The ping effect is not a database connect. -/
lemma pingEff_ne_dbConnect (env : Env) : pingEff env ≠ Eff.dbConnect := by
  cases h : env.pingAttemptFails <;> simp [pingEff, h]

/-- Iterating `startup` from a connected state: every iteration succeeds,
runs the search-index init and the ping again, spawns one more scheduler
task, and never reconnects the database. -/
lemma startupIter_connected (env : Env) (hm : env.meiliFails = false) :
    ∀ (n : Nat) (s : SysState), s.dbConnected = true →
    ∃ s', startupIter env n s = .ok s'
      ∧ s'.dbConnected = true
      ∧ s'.tasksSpawned = s.tasksSpawned + n
      ∧ s'.trace.countP isMeiliInit = s.trace.countP isMeiliInit + n
      ∧ s'.trace.countP isTelemetryPing = s.trace.countP isTelemetryPing + n
      ∧ s'.trace.count Eff.dbConnect = s.trace.count Eff.dbConnect := by
  intro n
  induction n with
  | zero =>
      intro s hdb
      exact ⟨s, rfl, hdb, by simp, by simp, by simp, by simp⟩
  | succ n ih =>
      intro s hdb
      have hstep := startup_connected_ok env s hdb hm
      set s1 : SysState :=
        { dbConnected := true, tasksSpawned := s.tasksSpawned + 1,
          trace := s.trace ++ [Eff.meiliInit true, pingEff env, Eff.spawnScheduler true] }
        with hs1
      obtain ⟨s', hrun, hfin, htk, hmc, hpc, hcc⟩ := ih s1 rfl
      have htk1 : s1.tasksSpawned = s.tasksSpawned + 1 := rfl
      have hmc1 : List.countP isMeiliInit s1.trace = List.countP isMeiliInit s.trace + 1 := by
        show List.countP isMeiliInit
          (s.trace ++ [Eff.meiliInit true, pingEff env, Eff.spawnScheduler true]) = _
        cases h : env.pingAttemptFails <;>
          simp [List.countP_append, pingEff, h, isMeiliInit]
      have hpc1 : List.countP isTelemetryPing s1.trace =
          List.countP isTelemetryPing s.trace + 1 := by
        show List.countP isTelemetryPing
          (s.trace ++ [Eff.meiliInit true, pingEff env, Eff.spawnScheduler true]) = _
        cases h : env.pingAttemptFails <;>
          simp [List.countP_append, pingEff, h, isTelemetryPing]
      have hcc1 : List.count Eff.dbConnect s1.trace = List.count Eff.dbConnect s.trace := by
        show List.count Eff.dbConnect
          (s.trace ++ [Eff.meiliInit true, pingEff env, Eff.spawnScheduler true]) = _
        cases h : env.pingAttemptFails <;>
          simp [List.count_append, pingEff, h]
      refine ⟨s', ?_, hfin, ?_, ?_, ?_, ?_⟩
      · simp [startupIter, hstep, hrun, Bind.bind, Except.bind]
      · rw [htk, htk1]; omega
      · rw [hmc, hmc1]; omega
      · rw [hpc, hpc1]; omega
      · rw [hcc, hcc1]

/-! ## Claims about the lifecycle hooks -/

/-- C2: when the telemetry ping's own attempt raises, the failure is
caught inside the ping: `startup` still finishes normally, the trace
records the caught ping, and the subsequent step — spawning the background
scheduler task — still runs. -/
theorem telemetry_ping_failure_nonfatal (env : Env) (s : SysState)
    (hp : env.pingAttemptFails = true) (hc : env.connectFails = false)
    (hm : env.meiliFails = false) :
    ∃ s', startup env s = .ok s'
      ∧ s'.tasksSpawned = s.tasksSpawned + 1
      ∧ s'.trace = s.trace ++ (if s.dbConnected then [] else [Eff.dbConnect])
          ++ [Eff.meiliInit true, Eff.telemetryPingCaught, Eff.spawnScheduler true] := by
  cases hdb : s.dbConnected
  · refine ⟨_, startup_disconnected_ok env s hdb hc hm, rfl, ?_⟩
    simp [pingEff, hp]
  · refine ⟨_, startup_connected_ok env s hdb hm, rfl, ?_⟩
    simp [pingEff, hp]

/-- Witness for C2: a failing ping on a fresh state. -/
theorem telemetry_ping_failure_nonfatal_witness :
    ∃ s', startup ⟨false, false, false, true⟩ freshState = .ok s'
      ∧ s'.tasksSpawned = freshState.tasksSpawned + 1
      ∧ s'.trace = freshState.trace
          ++ (if freshState.dbConnected then [] else [Eff.dbConnect])
          ++ [Eff.meiliInit true, Eff.telemetryPingCaught, Eff.spawnScheduler true] :=
  telemetry_ping_failure_nonfatal ⟨false, false, false, true⟩ freshState rfl rfl rfl

/-- C4: the connect in `startup` is guarded by `is_connected`: starting
from a connected handle, `startup` adds no connect effect to the trace —
whatever the environment does — and two successive `startup` calls from
any state add at most one connect effect in total. -/
theorem startup_connect_guard (env env2 : Env) (s : SysState) :
    (s.dbConnected = true →
      (outState (startup env s)).trace.count Eff.dbConnect = s.trace.count Eff.dbConnect)
    ∧ (outState (startup env2 (outState (startup env s)))).trace.count Eff.dbConnect
        ≤ s.trace.count Eff.dbConnect + 1 := by
  have h1 := startup_outState_count_connect env s
  have h2 := startup_outState_count_connect env2 (outState (startup env s))
  have h3 := startup_outState_dbConnected env s
  constructor
  · intro hdb
    rw [h1, hdb]
    simp
  · rw [h2, h1, h3]
    cases hdb : s.dbConnected <;> cases hcf : env.connectFails <;>
      cases hcf2 : env2.connectFails <;> simp

/-- Witness for C4 on a connected handle. -/
theorem startup_connect_guard_witness :
    (outState (startup ⟨false, false, false, false⟩
        { dbConnected := true, tasksSpawned := 0, trace := [] })).trace.count Eff.dbConnect
      = ({ dbConnected := true, tasksSpawned := 0, trace := [] } : SysState).trace.count
          Eff.dbConnect
    ∧ (outState (startup ⟨false, false, false, false⟩
        (outState (startup ⟨false, false, false, false⟩
          { dbConnected := true, tasksSpawned := 0, trace := [] })))).trace.count Eff.dbConnect
        ≤ ({ dbConnected := true, tasksSpawned := 0, trace := [] } : SysState).trace.count
            Eff.dbConnect + 1 :=
  ⟨(startup_connect_guard ⟨false, false, false, false⟩ ⟨false, false, false, false⟩
      { dbConnected := true, tasksSpawned := 0, trace := [] }).1 rfl,
   (startup_connect_guard ⟨false, false, false, false⟩ ⟨false, false, false, false⟩
      { dbConnected := true, tasksSpawned := 0, trace := [] }).2⟩

/-- C5: `shutdown` on a connected handle disconnects it, and a second
`shutdown` on the now-disconnected handle performs no disconnect and
cannot error — it returns the state unchanged in every environment. -/
theorem shutdown_idempotent (env env2 : Env) (s : SysState)
    (hdb : s.dbConnected = true) (hf : env.disconnectFails = false) :
    ∃ s', shutdown env s = .ok s'
      ∧ s'.dbConnected = false
      ∧ s'.trace = s.trace ++ [Eff.dbDisconnect]
      ∧ shutdown env2 s' = .ok s' := by
  refine ⟨{ s with dbConnected := false, trace := s.trace ++ [Eff.dbDisconnect] }, ?_, rfl, rfl, ?_⟩
  · simp [shutdown, dbDisconnect, hdb, hf]
  · simp [shutdown]

/-- Witness for C5, with the second call running in an environment where a
disconnect attempt would fail. -/
theorem shutdown_idempotent_witness :
    ∃ s', shutdown ⟨false, false, false, false⟩
        { dbConnected := true, tasksSpawned := 0, trace := [] } = .ok s'
      ∧ s'.dbConnected = false
      ∧ s'.trace = ({ dbConnected := true, tasksSpawned := 0, trace := [] } : SysState).trace
          ++ [Eff.dbDisconnect]
      ∧ shutdown ⟨false, true, false, false⟩ s' = .ok s' :=
  shutdown_idempotent ⟨false, false, false, false⟩ ⟨false, true, false, false⟩
    { dbConnected := true, tasksSpawned := 0, trace := [] } rfl rfl

/-- C6: from a fresh process, when the external calls succeed, the startup
steps run strictly in sequence — connect, then search-index init, then
telemetry ping, then scheduler spawn — and the trace records the database
as connected both when the search-index initializer is invoked and when
the scheduler is spawned. -/
theorem startup_step_order (env : Env)
    (hc : env.connectFails = false) (hm : env.meiliFails = false) :
    startup env freshState = .ok
      { dbConnected := true, tasksSpawned := 1,
        trace := [Eff.dbConnect, Eff.meiliInit true, pingEff env,
                  Eff.spawnScheduler true] } := by
  have h := startup_disconnected_ok env freshState rfl hc hm
  simpa [freshState] using h

/-- Witness for C6 in the all-success environment. -/
theorem startup_step_order_witness :
    startup ⟨false, false, false, false⟩ freshState = .ok
      { dbConnected := true, tasksSpawned := 1,
        trace := [Eff.dbConnect, Eff.meiliInit true, pingEff ⟨false, false, false, false⟩,
                  Eff.spawnScheduler true] } :=
  startup_step_order ⟨false, false, false, false⟩ rfl rfl

/-- C10: only the connect is guarded by the connection state: calling
`startup` `n` times from a fresh process (external calls succeeding) runs
the search-index init `n` times and the telemetry ping `n` times, spawns
`n` scheduler tasks, and connects the database only once. -/
theorem startup_unguarded_repetition (env : Env) (n : Nat)
    (hc : env.connectFails = false) (hm : env.meiliFails = false) :
    ∃ s', startupIter env n freshState = .ok s'
      ∧ s'.tasksSpawned = n
      ∧ s'.trace.countP isMeiliInit = n
      ∧ s'.trace.countP isTelemetryPing = n
      ∧ s'.trace.count Eff.dbConnect = min 1 n := by
  cases n with
  | zero => exact ⟨freshState, rfl, rfl, rfl, rfl, rfl⟩
  | succ n =>
      have hstep := startup_disconnected_ok env freshState rfl hc hm
      set s1 : SysState :=
        { dbConnected := true, tasksSpawned := 1,
          trace := [Eff.dbConnect, Eff.meiliInit true, pingEff env,
                    Eff.spawnScheduler true] } with hs1
      have hstep1 : startup env freshState = .ok s1 := by
        simpa [freshState, hs1] using hstep
      obtain ⟨s', hrun, hfin, htk, hmc, hpc, hcc⟩ := startupIter_connected env hm n s1 rfl
      have htk1 : s1.tasksSpawned = 1 := rfl
      have hmc1 : List.countP isMeiliInit s1.trace = 1 := by
        rw [hs1]
        cases h : env.pingAttemptFails <;> simp [pingEff, h, isMeiliInit]
      have hpc1 : List.countP isTelemetryPing s1.trace = 1 := by
        rw [hs1]
        cases h : env.pingAttemptFails <;> simp [pingEff, h, isTelemetryPing]
      have hcc1 : List.count Eff.dbConnect s1.trace = 1 := by
        rw [hs1]
        cases h : env.pingAttemptFails <;> simp [pingEff, h, List.count_cons]
      refine ⟨s', ?_, ?_, ?_, ?_, ?_⟩
      · simp [startupIter, hstep1, hrun, Bind.bind, Except.bind]
      · rw [htk, htk1]; omega
      · rw [hmc, hmc1]; omega
      · rw [hpc, hpc1]; omega
      · rw [hcc, hcc1]; simp

/-- Witness for C10 at three invocations. -/
theorem startup_unguarded_repetition_witness :
    ∃ s', startupIter ⟨false, false, false, false⟩ 3 freshState = .ok s'
      ∧ s'.tasksSpawned = 3
      ∧ s'.trace.countP isMeiliInit = 3
      ∧ s'.trace.countP isTelemetryPing = 3
      ∧ s'.trace.count Eff.dbConnect = min 1 3 :=
  startup_unguarded_repetition ⟨false, false, false, false⟩ 3 rfl rfl

end ClassQuiz
